import Mathlib

/-!
# Verification of the matching and ranking engine of the AIDI1003 capstone repository

Shallow embedding of the code that the frozen claims are about:

* the Python training and serving script (`match_label`, the `/ats/evaluate`
  endpoint);
* `src/services/resumeApiService.js` (`checkBackendStatus`, `extractSkills`,
  `calculateMatchScore`);
* `src/services/mockAiService.js` (`rankCandidates`);
* `src/services/resume/resumeGenerationService.js` (`convertProfileToText`,
  `analyzeJobAndProfile`, `generateResumeContent`, `checkAtsCompatibility`,
  `generateFinalResume`).

JavaScript values that the code branches on by runtime shape are modelled by
the inductive `JSVal`; JavaScript numbers that only ever hold scores are
modelled by `ℚ`; a promise that can reject is modelled by `Except String`,
the `String` standing for the thrown error; the network is modelled by
passing each axios response (or its rejection) in as an argument, and the
wall clock by passing the current time string in as an argument.
-/

namespace Spec2Proof

/-! ## A model of the JavaScript values the services branch on

`num` carries an `Int`: the only numbers reaching the shape-branching code in
the services are integral test values, and nothing proved here depends on
numeric printing. `undef` is the JavaScript `undefined`.
-/

inductive JSVal : Type where
  | str : String → JSVal
  | num : Int → JSVal
  | jbool : Bool → JSVal
  | null : JSVal
  | undef : JSVal
  | obj : List (String × JSVal) → JSVal
  | arr : List JSVal → JSVal

/-- First value stored under `key`, `undef` when the object has no such key
(JavaScript property read). Objects are modelled as key-value lists without
repeated keys. -/
def objLookup : List (String × JSVal) → String → JSVal
  | [], _ => .undef
  | (k, v) :: rest, key => if k = key then v else objLookup rest key

/-- Whether the object has the key at all (distinguishes a missing key from a
key holding `undefined`). -/
def hasKey : List (String × JSVal) → String → Bool
  | [], _ => false
  | (k, _) :: rest, key => k == key || hasKey rest key

/-- JavaScript truthiness: empty string, `0`, `false`, `null` and `undefined`
are falsy; every object and array is truthy. -/
def truthy : JSVal → Bool
  | .str s => !(s == "")
  | .num n => !(n == 0)
  | .jbool b => b
  | .null => false
  | .undef => false
  | .obj _ => true
  | .arr _ => true

/-- `fields` with every entry for `key` removed (used to model a spread that
overrides an earlier literal key). -/
def removeKey (fields : List (String × JSVal)) (key : String) : List (String × JSVal) :=
  fields.filter (fun kv => !(kv.1 == key))

mutual
/-- Model of the JavaScript builtin `JSON.stringify` on the values above
(`undefined` inside an array serialises as `null`; the code only ever uses the
result as an opaque name string). -/
def stringify : JSVal → String
  | .str s => "\"" ++ s ++ "\""
  | .num n => toString n
  | .jbool b => if b then "true" else "false"
  | .null => "null"
  | .undef => "null"
  | .obj fields => "\x7b" ++ stringifyFields fields ++ "\x7d"
  | .arr elems => "[" ++ stringifyElems elems ++ "]"

def stringifyFields : List (String × JSVal) → String
  | [] => ""
  | [(k, v)] => "\"" ++ k ++ "\":" ++ stringify v
  | (k, v) :: rest => "\"" ++ k ++ "\":" ++ stringify v ++ "," ++ stringifyFields rest

def stringifyElems : List JSVal → String
  | [] => ""
  | [v] => stringify v
  | v :: rest => stringify v ++ "," ++ stringifyElems rest
end

mutual
/-- Model of the JavaScript builtin `String(x)` conversion. -/
def jsToString : JSVal → String
  | .str s => s
  | .num n => toString n
  | .jbool b => if b then "true" else "false"
  | .null => "null"
  | .undef => "undefined"
  | .obj _ => "[object Object]"
  | .arr l => jsToStringElems l

def jsToStringElems : List JSVal → String
  | [] => ""
  | [v] => jsToStringElem v
  | v :: rest => jsToStringElem v ++ "," ++ jsToStringElems rest

/-- Inside `Array.prototype.toString`, `null` and `undefined` elements print
as the empty string. -/
def jsToStringElem : JSVal → String
  | .null => ""
  | .undef => ""
  | v => jsToString v
end

/-- ASCII lower-casing of one character (the `toLowerCase` the services apply
to skill names, which are ASCII). -/
def charToLower (c : Char) : Char :=
  if 'A' ≤ c && c ≤ 'Z' then Char.ofNat (c.toNat + 32) else c

/-- Model of `String.prototype.toLowerCase`. -/
def strToLower (s : String) : String := String.mk (s.data.map charToLower)

/-- `needle` is a prefix of `hay` (character lists). -/
def startsWithL : List Char → List Char → Bool
  | [], _ => true
  | _ :: _, [] => false
  | a :: as, b :: bs => a == b && startsWithL as bs

/-- `needle` occurs contiguously somewhere in `hay` (character lists). -/
def containsSubL : List Char → List Char → Bool
  | needle, [] => startsWithL needle []
  | needle, h :: t => startsWithL needle (h :: t) || containsSubL needle t

/-- Model of `String.prototype.includes`: `hay` contains `needle`. -/
def strIncludes (hay needle : String) : Bool := containsSubL needle.data hay.data

/-- Model of `Array.prototype.join(sep)` on an array of strings. -/
def joinWith (sep : String) : List String → String
  | [] => ""
  | [s] => s
  | s :: rest => s ++ sep ++ joinWith sep rest

/-- JavaScript `x || d` on an optional string field: a missing field and the
empty string are both falsy and give the default. -/
def jsOrStr (o : Option String) (d : String) : String :=
  match o with
  | some s => if s == "" then d else s
  | none => d

/-- JavaScript `x || d` on an optional numeric field: a missing field and `0`
are both falsy and give the default. -/
def jsOrQ (o : Option ℚ) (d : ℚ) : ℚ :=
  match o with
  | some q => if q == 0 then d else q
  | none => d

/-- JavaScript `v || d` on a generic value. -/
def jsOrV (v d : JSVal) : JSVal := if truthy v then v else d

/-! ## The Python training and serving script

`match_label` is the labelling rule of the training script:
`df['match_label'] = (df['matched_score'].astype(float) > 0.6).astype(int)`.
Scores are modelled as `ℚ`. The served BERT classifier of `/ats/evaluate` is
an external collaborator: it is modelled as an arbitrary function from the
combined input text to the predicted class (the `argmax` of its logits).
-/

/-- The hard-coded labelling threshold `0.6` of the training script. -/
def matchThreshold : ℚ := 6 / 10

/-- `(matched_score > 0.6).astype(int)`: `1` for a high match, `0` for a low
match. -/
def match_label (matched_score : ℚ) : Nat :=
  if matchThreshold < matched_score then 1 else 0

/-- The `/ats/evaluate` handler combines the two texts with a `[SEP]` token
before tokenising. -/
def combineTexts (job_description resume : String) : String :=
  job_description ++ " [SEP] " ++ resume

/-- The `/ats/evaluate` handler: run the classifier on the combined text and
map predicted class `1` to `"Match"`, anything else to `"No Match"`. -/
def evaluate (classify : String → Nat) (job_description resume : String) : String :=
  if classify (combineTexts job_description resume) == 1 then "Match" else "No Match"

/-! ## `extractSkills` of `src/services/resumeApiService.js`

The axios response is passed in as `Except String JSVal`: `.error` is a
rejected request (network failure), `.ok` carries `response.data`. The `map`
callback branches on the runtime shape of each entry; reading a property of
`null` (whose `typeof` is `"object"`) throws a `TypeError`, which the
surrounding `catch` re-throws.
-/

/-- The callback of `skills.map(...)` in `extractSkills`. -/
def processSkill (skill : JSVal) : Except String JSVal :=
  match skill with
  | .str s => .ok (.obj [("name", .str s)])
  | .null => .error "TypeError: Cannot read properties of null"
  | .obj fields =>
    if truthy (objLookup fields "skill") then
      -- the literal writes name first, then the spread overrides it when the
      -- object has its own name key
      .ok (.obj (("name",
        if hasKey fields "name" then objLookup fields "name"
        else objLookup fields "skill") :: removeKey fields "name"))
    else if truthy (objLookup fields "name") then
      .ok (.obj fields)
    else
      .ok (.obj [("name", .str (stringify (.obj fields)))])
  | .arr elems => .ok (.obj [("name", .str (stringify (.arr elems)))])
  | other => .ok (.obj [("name", .str (jsToString other))])

/-- `skills.map(...)` under exception semantics: the first throwing entry
aborts the whole map. -/
def processSkills : List JSVal → Except String (List JSVal)
  | [] => .ok []
  | s :: rest =>
    match processSkill s with
    | .error e => .error e
    | .ok v =>
      match processSkills rest with
      | .error e => .error e
      | .ok vs => .ok (v :: vs)

/-- `extractSkills`: on a rejected request the `catch` logs and re-throws; on
a response it maps the entries when `data` is an array and returns `[]`
otherwise. -/
def extractSkills (response : Except String JSVal) : Except String (List JSVal) :=
  match response with
  | .error e => .error e
  | .ok data =>
    match data with
    | .arr skills => processSkills skills
    | _ => .ok []

/-- The `name` field of each returned entry, as a string when it is one
(observation helper for stating results). -/
def entryName : JSVal → Option JSVal
  | .obj fields => if hasKey fields "name" then some (objLookup fields "name") else none
  | _ => none

/-- The returned entry is an object that has a `name` key. -/
def isObjWithName (v : JSVal) : Bool :=
  match v with
  | .obj fields => hasKey fields "name"
  | _ => false

/-- The returned entry is an object whose `name` key holds a string. -/
def nameIsString (v : JSVal) : Bool :=
  match v with
  | .obj fields =>
    match objLookup fields "name" with
    | .str _ => true
    | _ => false
  | _ => false

/-- `data` is a JavaScript array (`Array.isArray`). -/
def isArray : JSVal → Bool
  | .arr _ => true
  | _ => false

/-! ## `calculateMatchScore` of `src/services/resumeApiService.js` -/

/-- Shape of the `/match-resume` response body the code reads
(`response.data.matchScore`). -/
structure MatchResp where
  matchScore : ℚ

/-- `calculateMatchScore`: returns `response.data.matchScore`; on a rejected
request the `catch` logs and re-throws the error. -/
def calculateMatchScore (response : Except String MatchResp) : Except String ℚ :=
  match response with
  | .error e => .error e
  | .ok data => .ok data.matchScore

/-! ## `checkBackendStatus` of `src/services/resumeApiService.js`

The function holds no state between calls: the module has no cache variable
and no timestamp. Each invocation awaits `axios.get(model-status)` and maps
success to `true`, any rejection to `false`. One invocation is modelled by
`checkBackendStatusCall` applied to the transport outcome of the probe that
this very invocation issues; a sequence of invocations is the map of that
function over the sequence of transport outcomes.
-/

/-- Observation of one `checkBackendStatus` invocation: the boolean it
returns and whether it issued a network request (it always does: the
`axios.get` is unconditional). -/
structure HealthCheckCall where
  result : Bool
  networkRequestIssued : Bool

/-- One invocation of `checkBackendStatus` whose own probe had transport
outcome `transportOk`. -/
def checkBackendStatusCall (transportOk : Bool) : HealthCheckCall :=
  { result := transportOk, networkRequestIssued := true }

/-- A sequence of `checkBackendStatus` invocations, one per transport
outcome. -/
def runHealthChecks (transports : List Bool) : List HealthCheckCall :=
  transports.map checkBackendStatusCall

/-! ## `rankCandidates` of `src/services/mockAiService.js`

The mock service returns a fixed ranking list regardless of its arguments,
plus a fresh timestamp. The wall clock is passed in as `now`; the candidate
list type is abstract because the function never inspects it.
-/

/-- One entry of the fixed `mockResponses.ranking` list. -/
structure MockRankedCandidate where
  candidateName : String
  score : Nat
  strengths : List String
  deriving DecidableEq

/-- The constant `mockResponses.ranking`. -/
def mockRanking : List MockRankedCandidate :=
  [{ candidateName := "John Doe", score := 85,
     strengths := ["Technical expertise", "Leadership experience", "Communication skills"] },
   { candidateName := "Jane Smith", score := 92,
     strengths := ["Relevant industry experience", "Project management", "Innovation"] }]

/-- The object `rankCandidates` resolves with. -/
structure RankResponse where
  rankings : List MockRankedCandidate
  timestamp : String
  deriving DecidableEq

/-- `rankCandidates(jobDescription, candidates)`: waits, then returns the
fixed mock ranking with the current timestamp. -/
def rankCandidates {α : Type} (now : String) (jobDescription : String)
    (candidates : List α) : RankResponse :=
  { rankings := mockRanking, timestamp := now }

/-! ## `src/services/resume/resumeGenerationService.js`

The four axios-backed helpers of the file (`checkBackendStatus`,
`extractSkills`, `calculateMatchScore`, `generatePersonalizedResume`) are
modelled by a `Backend` record holding each endpoint response (or its
rejection); the orchestration functions (`analyzeJobAndProfile`,
`generateResumeContent`, `checkAtsCompatibility`, `generateFinalResume`) are
translated clause by clause. Response bodies are typed with the shape the
code reads from them; the `skills`, `experience` and `education` fields of
the generated resume stay `JSVal` because the code branches on
`Array.isArray` and indexes them.
-/

/-- One entry of the extract-skills response as `analyzeJobAndProfile` reads
it: only `skill.name` is consumed, via `skill.name || ''`. -/
structure SkillEntry where
  name : Option String
  deriving DecidableEq

/-- `skill.name || ''`. -/
def skillNameOf (s : SkillEntry) : String := jsOrStr s.name ""

/-- The `/generate-resume` response body as the code reads it. -/
structure GenResume where
  summary : Option String
  skills : JSVal
  experience : JSVal
  education : JSVal
  matchScore : Option ℚ

/-- The four backend endpoints, each either a response body or a rejected
request carrying the thrown error. -/
structure Backend where
  modelStatus : Except String Unit
  extractSkillsResp : Except String (List SkillEntry)
  matchResumeResp : Except String MatchResp
  generateResumeResp : Except String GenResume

/-- `checkBackendStatus` of this file: `true` on response, `false` on any
rejection (the `catch` swallows the error). -/
def checkBackendStatusRG (b : Backend) : Bool := b.modelStatus.isOk

/-- Candidate profile fields the conversion reads. -/
structure PersonalInfo where
  name : Option String
  email : Option String
  phone : Option String
  location : Option String
  deriving DecidableEq

structure ExperienceItem where
  title : Option String
  company : Option String
  duration : Option String
  description : Option String
  deriving DecidableEq

structure EducationItem where
  degree : Option String
  school : Option String
  year : Option String
  deriving DecidableEq

structure CandidateProfile where
  personalInfo : Option PersonalInfo
  experience : List ExperienceItem
  education : List EducationItem
  skills : List String
  deriving DecidableEq

/-- `convertProfileToText`: the plain-text resume assembled from the profile;
empty string when the profile has no `personalInfo`. -/
def convertProfileToText (profile : CandidateProfile) : String :=
  match profile.personalInfo with
  | none => ""
  | some pi =>
    jsOrStr pi.name "" ++ "\n"
      ++ jsOrStr pi.email "" ++ " | " ++ jsOrStr pi.phone "" ++ " | "
      ++ jsOrStr pi.location "" ++ "\n\n"
      ++ "EXPERIENCE\n"
      ++ joinWith "" (profile.experience.map (fun exp =>
          jsOrStr exp.title "" ++ " at " ++ jsOrStr exp.company "" ++ " ("
            ++ jsOrStr exp.duration "" ++ ")\n" ++ jsOrStr exp.description "" ++ "\n\n"))
      ++ "EDUCATION\n"
      ++ joinWith "" (profile.education.map (fun edu =>
          jsOrStr edu.degree "" ++ " from " ++ jsOrStr edu.school "" ++ " ("
            ++ jsOrStr edu.year "" ++ ")\n"))
      ++ "SKILLS\n"
      ++ (if profile.skills.length > 0 then joinWith ", " profile.skills else "")

/-- The filter applied to the `missing`, `critical` and `recommended` name
lists: keep a name when it is non-empty, the resume text is non-empty and the
lower-cased resume text does not contain the lower-cased name. -/
def gapFilter (resumeText : String) (names : List String) : List String :=
  names.filter (fun s =>
    !(s == "") && !(resumeText == "") && !(strIncludes (strToLower resumeText) (strToLower s)))

structure KeywordMatch where
  matched : List String
  missing : List String
  partialKw : List String
  deriving DecidableEq

structure SkillGapsOut where
  critical : List String
  recommended : List String
  nice : List String
  deriving DecidableEq

structure ToneSuggestions where
  industry : String
  formality : String
  focus : String
  deriving DecidableEq

/-- The object `analyzeJobAndProfile` resolves with. -/
structure Analysis where
  keywordMatch : KeywordMatch
  recommendedSections : List String
  toneSuggestions : ToneSuggestions
  skillGaps : SkillGapsOut
  atsScore : ℚ
  improvements : List String
  deriving DecidableEq

/-- `analyzeJobAndProfile`: extract skills, convert the profile to text,
score the match, then slice the extracted skills into keyword and gap
buckets. `slice(a, b)` is `drop a` then `take (b - a)`; the `nice` bucket is
not filtered against the resume text. -/
def analyzeJobAndProfile (b : Backend) (jobDescription : String)
    (candidateProfile : CandidateProfile) : Except String Analysis :=
  match b.extractSkillsResp with
  | .error e => .error e
  | .ok extractedSkills =>
    let resumeText := convertProfileToText candidateProfile
    match b.matchResumeResp with
    | .error e => .error e
    | .ok m =>
      .ok {
        keywordMatch := {
          matched := (extractedSkills.take 3).map skillNameOf
          missing := gapFilter resumeText (((extractedSkills.drop 3).take 3).map skillNameOf)
          partialKw := ((extractedSkills.drop 6).take 3).map skillNameOf }
        recommendedSections :=
          ["Professional Summary", "Technical Skills", "Work Experience", "Education",
           "Projects"]
        toneSuggestions :=
          { industry := "technology", formality := "semi-formal",
            focus := "technical expertise" }
        skillGaps := {
          critical := gapFilter resumeText ((extractedSkills.take 2).map skillNameOf)
          recommended := gapFilter resumeText (((extractedSkills.drop 2).take 3).map skillNameOf)
          nice := ((extractedSkills.drop 5).take 2).map skillNameOf }
        atsScore := m.matchScore
        improvements :=
          ["Add more quantifiable achievements",
           "Include specific projects related to the job requirements",
           "Highlight relevant skills and experiences"] }

/-- `Array.isArray(v) ? v : (v ? [String(v)] : [])`. -/
def toArrayOrWrapStr (v : JSVal) : List JSVal :=
  match v with
  | .arr l => l
  | other => if truthy other then [.str (jsToString other)] else []

/-- The soft-skill allow list of `generateResumeContent`. -/
def softSkillNames : List String :=
  ["leadership", "communication", "teamwork", "problem-solving"]

/-- `skillsArray.filter(skill => typeof skill === 'string' && [...]
.includes(skill.toLowerCase()))`. -/
def softFilter (l : List JSVal) : List JSVal :=
  l.filter (fun skill =>
    match skill with
    | .str s => softSkillNames.contains (strToLower s)
    | _ => false)

/-- JavaScript indexing `v[i]`: throws on `null` and `undefined`, reads the
element (or `undefined`) on arrays, a one-character string on strings, the
string-keyed property on objects, `undefined` on primitives. -/
def jsIndex (v : JSVal) (i : Nat) : Except String JSVal :=
  match v with
  | .null => .error "TypeError: Cannot read properties of null"
  | .undef => .error "TypeError: Cannot read properties of undefined"
  | .arr l => .ok (l.getD i .undef)
  | .str s =>
    .ok (match s.data.get? i with
      | some c => .str (String.mk [c])
      | none => .undef)
  | .obj fields => .ok (objLookup fields (toString i))
  | _ => .ok .undef

structure ContentExperience where
  title : String
  company : String
  duration : String
  achievements : List JSVal

structure ContentSkills where
  technical : List JSVal
  soft : List JSVal

structure ContentEducation where
  degree : JSVal
  institution : JSVal
  year : String

structure Preferences where
  format : Option String
  tone : Option String
  deriving DecidableEq

/-- The object `generateResumeContent` resolves with. -/
structure ResumeContent where
  summary : String
  experience : List ContentExperience
  skills : ContentSkills
  education : ContentEducation
  format : String
  tone : String
  atsCompatibility : ℚ

/-- `generateResumeContent`: extract skills, convert the profile, request the
generated resume, then coerce its loose fields into the content shape.
Indexing `generatedResume.education[0]` throws when `education` is missing. -/
def generateResumeContent (b : Backend) (jobDescription : String)
    (candidateProfile : CandidateProfile) (preferences : Preferences) :
    Except String ResumeContent :=
  match b.extractSkillsResp with
  | .error e => .error e
  | .ok _extractedSkills =>
    let _resumeText := convertProfileToText candidateProfile
    match b.generateResumeResp with
    | .error e => .error e
    | .ok generatedResume =>
      let experienceArray := toArrayOrWrapStr generatedResume.experience
      let skillsArray := toArrayOrWrapStr generatedResume.skills
      match jsIndex generatedResume.education 0 with
      | .error e => .error e
      | .ok ed0 =>
        match jsIndex generatedResume.education 1 with
        | .error e => .error e
        | .ok ed1 =>
          .ok {
            summary := jsOrStr generatedResume.summary ""
            experience := experienceArray.map (fun exp =>
              { title := "Experience", company := "", duration := "",
                achievements := [exp] })
            skills := { technical := skillsArray, soft := softFilter skillsArray }
            education :=
              { degree := jsOrV ed0 (.str "Bachelor\x27s Degree")
                institution := jsOrV ed1 (.str "University")
                year := "2020" }
            format := jsOrStr preferences.format "modern"
            tone := jsOrStr preferences.tone "professional"
            atsCompatibility := jsOrQ generatedResume.matchScore 85 }

structure AtsIssue where
  issueType : String
  description : String
  severity : String
  deriving DecidableEq

/-- The object `checkAtsCompatibility` resolves with. -/
structure AtsCheck where
  score : ℚ
  issues : List AtsIssue
  suggestions : List String
  deriving DecidableEq

/-- `checkAtsCompatibility`: `resumeContent.atsCompatibility || 85` plus fixed
issue and suggestion lists. -/
def checkAtsCompatibility (resumeContent : ResumeContent) : AtsCheck :=
  { score := jsOrQ (some resumeContent.atsCompatibility) 85
    issues :=
      [{ issueType := "formatting", description := "Use standard section headings",
         severity := "medium" }]
    suggestions :=
      ["Use \"Work Experience\" instead of \"Professional History\"",
       "Ensure all dates are in MM/YYYY format",
       "Remove graphics and special characters"] }

structure ContactInfo where
  name : Option String
  email : Option String
  phone : Option String
  location : Option String
  deriving DecidableEq

/-- The `generatedResume` section of the final result. -/
structure GeneratedResumeOut where
  contact : ContactInfo
  summary : String
  skills : List JSVal
  experience : List JSVal
  education : List JSVal

/-- One entry of the `versions` list. -/
structure VersionEntry where
  id : Nat
  timestamp : String
  changes : List String

/-- The object `generateFinalResume` resolves with. -/
structure FinalResume where
  content : ResumeContent
  analysis : Analysis
  atsCheck : AtsCheck
  template : String
  generatedResume : GeneratedResumeOut
  versions : List VersionEntry

/-- `Array.isArray(v) ? v : []`. -/
def toArrayOrEmpty (v : JSVal) : List JSVal :=
  match v with
  | .arr l => l
  | _ => []

/-- `Array.isArray(v) ? v : (v ? [v] : [])` (the raw value is wrapped, not
stringified). -/
def toArrayOrWrapRaw (v : JSVal) : List JSVal :=
  match v with
  | .arr l => l
  | other => if truthy other then [other] else []

/-- `generateFinalResume(jobDescription, candidateProfile, preferences,
template)`: check the backend, run `analyzeJobAndProfile`,
`generateResumeContent` and `checkAtsCompatibility`, call the extractor and
generator once more, then assemble the final object with a fresh
`versions[0].timestamp` (the clock reading `now`). Reading
`candidateProfile.personalInfo.name` throws when `personalInfo` is missing;
the surrounding `catch` logs and re-throws every error. -/
def generateFinalResume (b : Backend) (now : String) (jobDescription : String)
    (candidateProfile : CandidateProfile) (preferences : Preferences)
    (template : String) : Except String FinalResume :=
  if checkBackendStatusRG b then
    match analyzeJobAndProfile b jobDescription candidateProfile with
    | .error e => .error e
    | .ok analysis =>
      match generateResumeContent b jobDescription candidateProfile preferences with
      | .error e => .error e
      | .ok content =>
        let atsCheck := checkAtsCompatibility content
        match b.extractSkillsResp with
        | .error e => .error e
        | .ok _extractedSkills =>
          let _resumeText := convertProfileToText candidateProfile
          match b.generateResumeResp with
          | .error e => .error e
          | .ok generatedResume =>
            match candidateProfile.personalInfo with
            | none => .error "TypeError: Cannot read properties of undefined"
            | some pi =>
              .ok {
                content := content
                analysis := analysis
                atsCheck := atsCheck
                template := template
                generatedResume := {
                  contact :=
                    { name := pi.name, email := pi.email, phone := pi.phone,
                      location := pi.location }
                  summary := jsOrStr generatedResume.summary ""
                  skills := toArrayOrEmpty generatedResume.skills
                  experience := toArrayOrWrapRaw generatedResume.experience
                  education := toArrayOrWrapRaw generatedResume.education }
                versions := [{ id := 1, timestamp := now, changes := ["Initial version"] }] }
  else
    .error "Backend service is not available. Please make sure the Python backend is running."

/-! ## Shared concrete inputs for witnesses and counterexamples -/

/-- A well-formed generated-resume response: every field present, `education`
an array of two strings. -/
def genOK : GenResume :=
  { summary := some "Summary"
    skills := JSVal.arr [JSVal.str "leadership"]
    experience := JSVal.arr [JSVal.str "Did X"]
    education := JSVal.arr [JSVal.str "BSc", JSVal.str "MIT"]
    matchScore := some (7 / 10) }

/-- Seven extracted skills, so that every slice of `analyzeJobAndProfile` is
inhabited. -/
def skillsSeven : List SkillEntry :=
  [{ name := some "alpha" }, { name := some "beta" }, { name := some "gamma" },
   { name := some "delta" }, { name := some "epsilon" }, { name := some "zeta" },
   { name := some "eta" }]

/-- A backend where every endpoint succeeds. -/
def backendOk : Backend :=
  { modelStatus := .ok ()
    extractSkillsResp := .ok skillsSeven
    matchResumeResp := .ok { matchScore := 7 / 10 }
    generateResumeResp := .ok genOK }

/-- A backend whose extract-skills endpoint is unreachable. -/
def backendExtractFail : Backend :=
  { backendOk with extractSkillsResp := .error "Network Error" }

/-- A profile that lists every one of the seven extracted skill names, so its
converted resume text contains each of them. -/
def profileSeven : CandidateProfile :=
  { personalInfo := some { name := some "Ada", email := none, phone := none, location := none }
    experience := []
    education := []
    skills := ["alpha", "beta", "gamma", "delta", "epsilon", "zeta", "eta"] }

/-- Default preferences. -/
def prefsDefault : Preferences := { format := none, tone := none }

/-- Observation of a final-resume result used to separate two results: the
version timestamps joined, or the error message. -/
def resultStamp (r : Except String FinalResume) : String :=
  match r with
  | .ok f => joinWith "," (f.versions.map VersionEntry.timestamp)
  | .error e => e

/-- The final resume with every version timestamp blanked (what is left of
the result once the clock reading is ignored). -/
def stripVersionTimestamps (f : FinalResume) : FinalResume :=
  { f with versions := f.versions.map (fun v => { v with timestamp := "" }) }

/-- A list of scores is in descending order. -/
def sortedDescBool : List Nat → Bool
  | [] => true
  | [_] => true
  | a :: b :: rest => (b ≤ a) && sortedDescBool (b :: rest)

/-! ## Helper lemmas -/

/-- When the lower-cased resume text contains every lower-cased name of the
list, the gap filter keeps nothing. -/
theorem gapFilter_eq_nil (rt : String) (names : List String)
    (h : ∀ s ∈ names, strIncludes (strToLower rt) (strToLower s) = true) :
    gapFilter rt names = [] := by
  unfold gapFilter
  refine List.filter_eq_nil_iff.mpr ?_
  intro s hs
  simp [h s hs]

/-- A truthy property read means the key is present. -/
theorem hasKey_of_truthy_lookup (fields : List (String × JSVal)) (k : String)
    (h : truthy (objLookup fields k) = true) : hasKey fields k = true := by
  induction fields with
  | nil => simp [objLookup, truthy] at h
  | cons kv rest ih =>
    by_cases hk : kv.1 = k
    · simp [hasKey, hk]
    · rw [objLookup] at h
      rw [if_neg hk] at h
      simp [hasKey, hk, ih h]

/-- Every value `processSkill` succeeds with is an object carrying a `name`
key. -/
theorem processSkill_ok_shape (skill v : JSVal) (h : processSkill skill = .ok v) :
    isObjWithName v = true := by
  cases skill with
  | str s => cases h; rfl
  | num n => cases h; rfl
  | jbool b => cases h; rfl
  | null => exact Except.noConfusion h
  | undef => cases h; rfl
  | arr l => cases h; rfl
  | obj fields =>
    rw [processSkill] at h
    by_cases h1 : truthy (objLookup fields "skill") = true
    · rw [if_pos h1] at h
      cases h
      simp [isObjWithName, hasKey]
    · rw [if_neg h1] at h
      by_cases h2 : truthy (objLookup fields "name") = true
      · rw [if_pos h2] at h
        cases h
        exact hasKey_of_truthy_lookup fields "name" h2
      · rw [if_neg h2] at h
        cases h
        rfl

/-- Every element of a successful `processSkills` run is an object carrying a
`name` key. -/
theorem processSkills_ok_shape (ls : List JSVal) :
    ∀ l, processSkills ls = .ok l → ∀ v ∈ l, isObjWithName v = true := by
  induction ls with
  | nil =>
    intro l h v hv
    cases h
    cases hv
  | cons s rest ih =>
    intro l h v hv
    rw [processSkills] at h
    cases hs : processSkill s with
    | error e => rw [hs] at h; exact Except.noConfusion h
    | ok u =>
      rw [hs] at h
      cases hr : processSkills rest with
      | error e => rw [hr] at h; exact Except.noConfusion h
      | ok us =>
        rw [hr] at h
        cases h
        rcases List.mem_cons.mp hv with hv1 | hv2
        · exact hv1 ▸ processSkill_ok_shape s u hs
        · exact ih us hr v hv2

/-- `processSkills` maps plain string entries to singleton name objects,
keeping order and multiplicity. -/
theorem processSkills_strs (ss : List String) :
    processSkills (ss.map JSVal.str)
      = .ok (ss.map (fun s => .obj [("name", .str s)])) := by
  induction ss with
  | nil => rfl
  | cons s rest ih => simp [processSkills, processSkill, ih]

/-! ## Claim C1 -/

/-- Claim C1: the training label is `1` (Match) exactly when the matched
score exceeds the threshold, the threshold is the scripts fixed `0.6`, and
the `/ats/evaluate` prediction is `"Match"` exactly when the served
classifier predicts label `1` on the combined text (and is always one of
`"Match"` and `"No Match"`). -/
theorem c1_label_threshold_and_prediction :
    (∀ matched_score : ℚ, match_label matched_score = 1 ↔ matchThreshold < matched_score)
      ∧ matchThreshold = 6 / 10
      ∧ (∀ (classify : String → Nat) (jd resume : String),
          evaluate classify jd resume = "Match" ↔ classify (combineTexts jd resume) = 1)
      ∧ (∀ (classify : String → Nat) (jd resume : String),
          evaluate classify jd resume = "Match" ∨ evaluate classify jd resume = "No Match") := by
  refine ⟨?_, rfl, ?_, ?_⟩
  · intro s
    unfold match_label
    by_cases h : matchThreshold < s
    · simp [h]
    · simp [h]
  · intro classify jd resume
    by_cases h : classify (combineTexts jd resume) = 1
    · simp [evaluate, h]
    · have hev : evaluate classify jd resume = "No Match" := by
        unfold evaluate
        rw [if_neg]
        simp [h]
      rw [hev]
      constructor
      · intro hc
        exact absurd hc (by decide)
      · intro hc
        exact absurd hc h
  · intro classify jd resume
    by_cases h : classify (combineTexts jd resume) = 1
    · left
      simp [evaluate, h]
    · right
      unfold evaluate
      rw [if_neg]
      simp [h]

/-! ## Claim C2 -/

/-- Claim C2 counterexample: on the concrete input of one candidate,
`rankCandidates` returns the fixed two-entry mock list whose scores are
`[85, 92]` — not ordered by composite score descending, and bearing no
relation to the input candidate. -/
theorem c2_counterexample :
    (rankCandidates "t" "job" [(3 : Nat)]).rankings.map MockRankedCandidate.score = [85, 92]
      ∧ sortedDescBool
          ((rankCandidates "t" "job" [(3 : Nat)]).rankings.map MockRankedCandidate.score)
        = false := by
  exact ⟨rfl, rfl⟩

/-- Claim C2 (amended): `rankCandidates` ignores the job description and the
candidate list entirely and returns the fixed mock ranking (John Doe 85, then
Jane Smith 92) with the current timestamp; no composite-score or
candidate-id ordering is applied. -/
theorem c2_rank_returns_fixed_mock {α : Type} (now jobDescription : String)
    (candidates : List α) :
    (rankCandidates now jobDescription candidates).rankings = mockRanking
      ∧ (rankCandidates now jobDescription candidates).timestamp = now := ⟨rfl, rfl⟩

/-! ## Claim C3 -/

/-- Claim C3 counterexample: for the backend response
`["React", "React", "  "]`, `extractSkills` keeps the capitalised name twice
and keeps the whitespace-only name — no lower-casing, no trimming, no
dedup, no dropping (and `"React"` is indeed not lower-case). -/
theorem c3_counterexample :
    extractSkills (.ok (.arr [.str "React", .str "React", .str "  "]))
      = .ok [.obj [("name", .str "React")], .obj [("name", .str "React")],
             .obj [("name", .str "  ")]]
      ∧ strToLower "React" ≠ "React" := ⟨rfl, by decide⟩

/-- Claim C3 (amended): `extractSkills` only normalises the shape of the
entries; skill names are kept verbatim — for any list of string entries it
returns one name object per string, in order, with the original casing,
whitespace, duplicates and empty names intact. -/
theorem c3_extract_keeps_names_verbatim (ss : List String) :
    extractSkills (.ok (.arr (ss.map JSVal.str)))
      = .ok (ss.map (fun s => .obj [("name", .str s)])) :=
  processSkills_strs ss

/-! ## Claim C4 -/

/-- Claim C4 counterexample: when the backing extractor is unavailable (the
request rejects), `extractSkills` re-throws the error instead of returning an
empty skill set. -/
theorem c4_counterexample :
    extractSkills (.error "Network Error") = .error "Network Error"
      ∧ extractSkills (.error "Network Error") ≠ .ok [] :=
  ⟨rfl, fun h => Except.noConfusion h⟩

/-- Claim C4 (amended): when the backing extractor is unavailable,
`extractSkills` logs and re-throws the very error it received; it never
converts the failure into an empty skill set. -/
theorem c4_extract_rethrows_on_unavailable (e : String) :
    extractSkills (.error e) = .error e ∧ (extractSkills (.error e)).isOk = false :=
  ⟨rfl, rfl⟩

/-! ## Claim C6 -/

/-- Claim C6 counterexample: two consecutive `checkBackendStatus` calls whose
probes both fail (so the second call falls inside any positive TTL after the
first failed probe) both issue a network request — the claimed cached
negative answer with no further network call would give `[true, false]`. -/
theorem c6_counterexample :
    (runHealthChecks [false, false]).map HealthCheckCall.networkRequestIssued = [true, true]
      ∧ (runHealthChecks [false, false]).map HealthCheckCall.result = [false, false]
      ∧ (runHealthChecks [false, false]).map HealthCheckCall.networkRequestIssued
        ≠ [true, false] := by
  refine ⟨rfl, rfl, ?_⟩
  decide

/-- Claim C6 (amended): `checkBackendStatus` caches nothing — there is no
stored state, timestamp or TTL — so every call issues its own fresh probe and
returns exactly that probes outcome; after a failed probe a later call
returns false only because its own probe also fails. -/
theorem c6_no_caching (transports : List Bool) :
    (runHealthChecks transports).map HealthCheckCall.result = transports
      ∧ ∀ c ∈ runHealthChecks transports, c.networkRequestIssued = true := by
  constructor
  · induction transports with
    | nil => rfl
    | cons t rest ih => simp [runHealthChecks, checkBackendStatusCall] at ih ⊢; exact ih
  · intro c hc
    rcases List.mem_map.mp hc with ⟨t, _, rfl⟩
    rfl

/-! ## Claim C7 -/

/-- Claim C7 counterexample: when the external scorer is unreachable,
`calculateMatchScore` produces no score at all — it re-throws the transport
error; there is no Jaccard (or any other) fallback computation in the
client. -/
theorem c7_counterexample :
    calculateMatchScore (.error "Network Error") = .error "Network Error"
      ∧ (calculateMatchScore (.error "Network Error")).isOk = false :=
  ⟨rfl, rfl⟩

/-- Claim C7 (amended): when the external scorer is unreachable,
`calculateMatchScore` logs and re-throws the very transport error; no
fallback score of any kind is computed, so no monotonicity property of a
fallback applies. -/
theorem c7_score_error_propagates (e : String) :
    calculateMatchScore (.error e) = .error e
      ∧ (calculateMatchScore (.error e)).isOk = false :=
  ⟨rfl, rfl⟩

/-! ## Claim C10 -/

/-- Claim C10 counterexample: the backend entry `(name := 42)` is returned
unchanged, so the `name` field of a returned element need not be a string. -/
theorem c10_counterexample :
    extractSkills (.ok (.arr [.obj [("name", .num 42)]])) = .ok [.obj [("name", .num 42)]]
      ∧ nameIsString (.obj [("name", .num 42)]) = false :=
  ⟨rfl, rfl⟩

/-- Claim C10 (amended): every element of a successful `extractSkills` result
is an object carrying a `name` key — string entries are wrapped, objects with
a truthy `skill` or `name` key keep their (possibly non-string) value, other
values are stringified — and any non-array response body yields the empty
list. (A `null` entry makes the whole call throw, so shape normalisation is
stated for the successful runs.) -/
theorem c10_shape_normalization :
    (∀ (r : Except String JSVal) (l : List JSVal), extractSkills r = .ok l →
        ∀ v ∈ l, isObjWithName v = true)
      ∧ (∀ d : JSVal, isArray d = false → extractSkills (.ok d) = .ok []) := by
  constructor
  · intro r l h v hv
    match r with
    | .error e => exact Except.noConfusion h
    | .ok data =>
      match data with
      | .arr skills => exact processSkills_ok_shape skills l h v hv
      | .str s => cases h; cases hv
      | .num n => cases h; cases hv
      | .jbool b => cases h; cases hv
      | .null => cases h; cases hv
      | .undef => cases h; cases hv
      | .obj fields => cases h; cases hv
  · intro d hd
    cases d with
    | arr l => exact absurd hd (by simp [isArray])
    | str s => rfl
    | num n => rfl
    | jbool b => rfl
    | null => rfl
    | undef => rfl
    | obj fields => rfl

/-! ## Claim C5 -/

/-- Claim C5 counterexample: with seven extracted skills all listed among the
profiles possessed skills (so possessed ⊇ required, and the resume text
contains every skill name), the returned gap buckets are not all empty: the
`nice` bucket still holds skills six and seven. -/
theorem c5_counterexample :
    (∀ s ∈ skillsSeven.map skillNameOf, s ∈ profileSeven.skills)
      ∧ (analyzeJobAndProfile backendOk "jd" profileSeven).map
          (fun a => (a.skillGaps.critical, a.skillGaps.recommended, a.skillGaps.nice))
        = .ok ([], [], ["zeta", "eta"])
      ∧ (["zeta", "eta"] : List String) ≠ [] :=
  ⟨by decide, rfl, by decide⟩

/-- Claim C5 (amended): only the `critical` and `recommended` buckets are
filtered against the resume text (by case-insensitive substring), and only
over the first five extracted skills; the `nice` bucket is skills six and
seven unconditionally. Hence when the resume text contains every extracted
skill name, `critical` and `recommended` are empty but `nice` is the sixth
and seventh skill names. -/
theorem c5_gap_tiers (b : Backend) (jd : String) (p : CandidateProfile)
    (skills : List SkillEntry)
    (hskills : b.extractSkillsResp = .ok skills)
    (hposs : ∀ s ∈ skills.map skillNameOf,
      strIncludes (strToLower (convertProfileToText p)) (strToLower s) = true) :
    (analyzeJobAndProfile b jd p).map
        (fun a => (a.skillGaps.critical, a.skillGaps.recommended, a.skillGaps.nice))
      = b.matchResumeResp.map
        (fun _ => ([], [], ((skills.drop 5).take 2).map skillNameOf)) := by
  unfold analyzeJobAndProfile
  rw [hskills]
  cases hM : b.matchResumeResp with
  | error e => rfl
  | ok m =>
    have h1 : gapFilter (convertProfileToText p) ((skills.map skillNameOf).take 2) = [] :=
      gapFilter_eq_nil _ _
        (fun s hs => hposs s ((List.take_sublist 2 (skills.map skillNameOf)).subset hs))
    have h2 : gapFilter (convertProfileToText p)
        (((skills.map skillNameOf).drop 2).take 3) = [] :=
      gapFilter_eq_nil _ _
        (fun s hs => hposs s (((List.take_sublist 3 ((skills.map skillNameOf).drop 2)).trans
          (List.drop_sublist 2 (skills.map skillNameOf))).subset hs))
    simp [Except.map, h1, h2]

/-- Claim C5 witness: the amended theorem applied at the concrete
seven-skill backend and the profile possessing all seven names. -/
theorem c5_witness :
    (analyzeJobAndProfile backendOk "jd" profileSeven).map
        (fun a => (a.skillGaps.critical, a.skillGaps.recommended, a.skillGaps.nice))
      = backendOk.matchResumeResp.map
        (fun _ => ([], [], ((skillsSeven.drop 5).take 2).map skillNameOf)) :=
  c5_gap_tiers backendOk "jd" profileSeven skillsSeven rfl (by decide)

/-! ## Claim C8 -/

/-- Claim C8 counterexample: two calls with identical inputs and an unchanged
backend, made at two different clock readings, return different
`AssembledResume` values — the embedded `versions[0].timestamp` differs. -/
theorem c8_counterexample :
    generateFinalResume backendOk "2024-01-01T00:00:00.000Z" "jd" profileSeven
        prefsDefault "modern"
      ≠ generateFinalResume backendOk "2024-01-01T00:00:01.000Z" "jd" profileSeven
        prefsDefault "modern" :=
  fun h => absurd (congrArg resultStamp h) (by decide)

/-- Claim C8 (amended): `generateFinalResume` is deterministic up to the
version timestamp: two calls with identical inputs and an unchanged backend
agree on everything once the `versions` timestamps are ignored (and are equal
when the clock reading is also the same). -/
theorem c8_deterministic_up_to_timestamp (b : Backend) (now1 now2 jd : String)
    (p : CandidateProfile) (prefs : Preferences) (t : String) :
    (generateFinalResume b now1 jd p prefs t).map stripVersionTimestamps
      = (generateFinalResume b now2 jd p prefs t).map stripVersionTimestamps := by
  unfold generateFinalResume
  cases hcb : checkBackendStatusRG b
  · rfl
  · cases hA : analyzeJobAndProfile b jd p with
    | error e => rfl
    | ok analysis =>
      cases hC : generateResumeContent b jd p prefs with
      | error e => rfl
      | ok content =>
        cases hE : b.extractSkillsResp with
        | error e => rfl
        | ok sk =>
          cases hG : b.generateResumeResp with
          | error e => rfl
          | ok g =>
            cases hP : p.personalInfo with
            | none => rfl
            | some pi => rfl

/-! ## Claim C9 -/

/-- A successful analysis needs a successful match-resume call. -/
theorem analyzeJobAndProfile_ok_matchResp (b : Backend) (jd : String)
    (p : CandidateProfile) (a : Analysis) (h : analyzeJobAndProfile b jd p = .ok a) :
    b.matchResumeResp.isOk = true := by
  unfold analyzeJobAndProfile at h
  cases hE : b.extractSkillsResp <;> rw [hE] at h
  · exact Except.noConfusion h
  · cases hM : b.matchResumeResp <;> rw [hM] at h
    · exact Except.noConfusion h
    · rfl

/-- Claim C9 counterexample: with the extract-skills endpoint failing,
`generateFinalResume` returns the bare re-thrown error — no partial result
carrying the sections that succeeded. -/
theorem c9_counterexample :
    generateFinalResume backendExtractFail "T1" "jd" profileSeven prefsDefault "modern"
      = .error "Network Error" := rfl

/-- Claim C9 (amended): when any upstream call fails, `generateFinalResume`
re-throws the failure instead of returning a partial result: a successful
result is only produced when the status probe, the extractor, the scorer and
the generator all succeeded. -/
theorem c9_failure_propagates (b : Backend) (now jd : String) (p : CandidateProfile)
    (prefs : Preferences) (t : String)
    (h : (generateFinalResume b now jd p prefs t).isOk = true) :
    b.modelStatus.isOk = true ∧ b.extractSkillsResp.isOk = true
      ∧ b.matchResumeResp.isOk = true ∧ b.generateResumeResp.isOk = true := by
  unfold generateFinalResume at h
  cases hcb : checkBackendStatusRG b
  · rw [hcb] at h
    simp [Except.isOk, Except.toBool] at h
  · rw [hcb] at h
    simp only [if_true] at h
    cases hA : analyzeJobAndProfile b jd p <;> rw [hA] at h
    · simp [Except.isOk, Except.toBool] at h
    · cases hC : generateResumeContent b jd p prefs <;> rw [hC] at h
      · simp [Except.isOk, Except.toBool] at h
      · cases hE : b.extractSkillsResp <;> rw [hE] at h
        · simp [Except.isOk, Except.toBool] at h
        · cases hG : b.generateResumeResp <;> rw [hG] at h
          · simp [Except.isOk, Except.toBool] at h
          · exact ⟨hcb, rfl, analyzeJobAndProfile_ok_matchResp b jd p _ hA, rfl⟩

/-- Claim C9 witness: the amended theorem applied at the all-successful
concrete backend. -/
theorem c9_witness :
    backendOk.modelStatus.isOk = true ∧ backendOk.extractSkillsResp.isOk = true
      ∧ backendOk.matchResumeResp.isOk = true
      ∧ backendOk.generateResumeResp.isOk = true :=
  c9_failure_propagates backendOk "T1" "jd" profileSeven prefsDefault "modern" (by decide)

end Spec2Proof
